import Mathlib

/-!
Verification development for the geo-data-viz-app repository.

The repository's two non-trivial components live in `src/utils.py`:

* `calculate_vmin_vmax` — computes a `(vmin, vmax)` display range for a
  raster from the valid pixel values of its first band;
* `download_from_s3` — a freshness-window cache fetcher for objects in an
  S3 bucket;

plus `visualize_raster`, whose `vmin`/`vmax` handling is modelled for the
safety claim about its unbound-local behaviour.

Pixel values are embedded as rationals together with the non-finite IEEE
values (NaN, +Inf, -Inf) that the source filters out before any
arithmetic; after filtering, every operation the source performs on the
sample is exact rational arithmetic, except `np.std`, whose square root is
irrational in general and is therefore passed as an explicit parameter
constrained in theorems by `0 ≤ σ ∧ σ ^ 2 = popVariance valid`.
-/

/-- A raster cell value as read by `src.read(1).astype(np.float64)`:
either a finite value (embedded as a rational) or one of the non-finite
IEEE float values that `np.isnan` / `np.isinf` detect. -/
inductive Pixel where
  | nan : Pixel
  | posInf : Pixel
  | negInf : Pixel
  | val : ℚ → Pixel
deriving DecidableEq, Repr

/-- `utils.py` lines 41–44: `valid_data = data[~np.isnan(data) & ~np.isinf(data)]`
followed by `valid_data = valid_data[valid_data != nodata]` when the raster
declares a no-data sentinel.  A NaN or infinite sentinel filters nothing
further (its cells were already removed, and `x != nan` is always true),
so the sentinel is embedded as an optional rational. -/
def validPixels (data : List Pixel) (nodata : Option ℚ) : List ℚ :=
  let finite := data.filterMap fun p =>
    match p with
    | .val q => some q
    | _ => none
  match nodata with
  | none => finite
  | some nd => finite.filter (fun x => x ≠ nd)

/-- `np.min` over a non-empty array (`0` pads the unreachable empty case,
which the source guards by the `valid_data.size == 0` check). -/
def listMin : List ℚ → ℚ
  | [] => 0
  | x :: xs => xs.foldl min x

/-- `np.max` over a non-empty array. -/
def listMax : List ℚ → ℚ
  | [] => 0
  | x :: xs => xs.foldl max x

/-- `np.mean`. -/
def listMean (l : List ℚ) : ℚ := l.sum / l.length

/-- The population variance `np.mean((x - x.mean())**2)`; `np.std` is its
nonnegative square root. -/
def popVariance (l : List ℚ) : ℚ :=
  listMean (l.map fun x => (x - listMean l) ^ 2)

/-- `np.percentile` with its default linear interpolation: for a sorted
sample `s` of size `n`, the `p`-th percentile sits at virtual index
`p / 100 * (n - 1)`; the value is interpolated linearly between the two
neighbouring entries. -/
def percentile (l : List ℚ) (p : ℚ) : ℚ :=
  let s := l.insertionSort (fun a b => a ≤ b)
  match s with
  | [] => 0
  | _ :: _ =>
    let n : ℚ := (s.length : ℚ)
    let rank : ℚ := p * (n - 1) / 100
    let i : ℕ := (Rat.floor rank).toNat
    let lo := s.getD i 0
    let hi := s.getD (i + 1) lo
    lo + (rank - (Rat.floor rank : ℚ)) * (hi - lo)

/-- Error message of `utils.py` line 47. -/
def noValidPixelsMsg : String := "No valid pixel values found in the raster."

/-- Error message of `utils.py` line 57. -/
def invalidMethodMsg : String :=
  "Invalid method. Choose from 'min_max', 'percent_clip', or 'std_dev'."

/-- `utils.py` lines 41–59, the body of `calculate_vmin_vmax` after the
first band `data` and the `nodata` sentinel have been read from the file.
`std` is the value of `np.std(valid_data)` (see the module header); every
other quantity is computed exactly.  Python exceptions are embedded as
`Except.error` carrying the raised message. -/
def calculate_vmin_vmax (data : List Pixel) (nodata : Option ℚ)
    (method : String) (percent_clip : ℚ × ℚ) (std_factor : ℚ) (std : ℚ) :
    Except String (ℚ × ℚ) :=
  let valid_data := validPixels data nodata
  if valid_data.length = 0 then
    .error noValidPixelsMsg
  else if method = "min_max" then
    .ok (listMin valid_data, listMax valid_data)
  else if method = "percent_clip" then
    .ok (percentile valid_data percent_clip.1, percentile valid_data percent_clip.2)
  else if method = "std_dev" then
    let mean := listMean valid_data
    .ok (mean - std_factor * std, mean + std_factor * std)
  else
    .error invalidMethodMsg


/-! ## The raster file collaborator and the stateful wrapper -/

/-- A raster file as far as `calculate_vmin_vmax` observes it: a list of
bands (each a grid of cells, flattened) and the optional no-data
sentinel. -/
structure Raster where
  bands : List (List Pixel)
  nodata : Option ℚ
deriving DecidableEq

/-- The filesystem as seen by the raster reader: a partial map from path
to raster content. -/
def RasterFS := String → Option Raster

/-- `utils.py` lines 37–39 wrapped around the computation: `rasterio.open`
in read mode, `src.read(1)` (the first band), `src.nodata`, and the
computation on the data read.  The filesystem is threaded through and
returned so that the absence of writes is a provable statement; opening a
missing path or an empty raster is the collaborator raising
(`RasterioIOError` / `IndexError`), embedded as `Except.error`. -/
def calculate_vmin_vmax_file (fs : RasterFS) (image_path : String)
    (method : String) (percent_clip : ℚ × ℚ) (std_factor : ℚ) (std : ℚ) :
    Except String (ℚ × ℚ) × RasterFS :=
  match fs image_path with
  | none => (.error "RasterioIOError", fs)
  | some src =>
    match src.bands with
    | [] => (.error "IndexError: band index 1 out of range", fs)
    | band1 :: _ => (calculate_vmin_vmax band1 src.nodata method percent_clip std_factor std, fs)

/-! ## `visualize_raster`: the vmin/vmax flow -/

/-- A Python exception as `visualize_raster` can raise it while building
`vis_params`: a `NameError` from reading a local variable that was never
assigned, or a propagated `ValueError`. -/
inductive PyErr where
  | nameError : PyErr
  | valueError : String → PyErr
deriving DecidableEq

/-- `utils.py` lines 101–115 of `visualize_raster`: the locals `v_min`,
`v_max` are assigned only inside `if vmin is None or vmax is None:`
(line 101), by `calculate_vmin_vmax(img_path, method='std_dev')` with the
default `percent_clip=(2, 98)` and `std_factor=2`; line 115 then reads
`v_min` and `v_max` unconditionally to build `vis_params`.  When the
branch was skipped the locals are unbound and line 115 raises `NameError`.
The raster's first band and sentinel stand in for `img_path`, and `std`
for `np.std` as in `calculate_vmin_vmax`. -/
def visualize_raster_visParams (band : List Pixel) (nodata : Option ℚ)
    (vmin vmax : Option ℚ) (std : ℚ) : Except PyErr (ℚ × ℚ) :=
  let locals : Option (ℚ × ℚ) := none
  match (if vmin.isNone || vmax.isNone then
           some (calculate_vmin_vmax band nodata "std_dev" (2, 98) 2 std)
         else none) with
  | some (.error e) => .error (.valueError e)
  | some (.ok p) => .ok p
  | none =>
    match locals with
    | some p => .ok p
    | none => .error .nameError

/-! ## The Local Cache Fetcher -/

/-- `os.path.basename`: everything after the last slash. -/
def basename (s : String) : String :=
  (s.splitOn "/").getLastD ""

/-- `os.path.join dir name` for a `name` not containing a slash (the only
shape `download_from_s3` joins): `dir` and `name` separated by exactly one
slash, except that an empty `dir` yields `name` alone. -/
def joinPath (dir name : String) : String :=
  if dir = "" then name
  else if dir.endsWith "/" then dir ++ name
  else dir ++ "/" ++ name

/-- The local filesystem as the fetcher observes it: a partial map from
path to the file's last-modified POSIX timestamp (seconds). -/
def MtimeFS := String → Option ℤ

/-- Outcome of one `download_from_s3` call: the returned path, whether
`s3.download_file` was invoked, and the filesystem afterwards. -/
structure FetchResult where
  path : String
  downloaded : Bool
  fs : MtimeFS

/-- `utils.py` lines 147–157 (`download_from_s3`): the local path is
`join(download_dir, basename(key))`; the object is downloaded exactly when
no file exists there or its mtime is below `now - 24 * 3600`
(`datetime.now().timestamp()` embedded as the integer `now`); a download
writes the file, stamping it with the current time.  `bucket_name` only
tells S3 where to read and never influences path, decision, or local
state. -/
def download_from_s3 (fs : MtimeFS) (now : ℤ)
    (bucket_name key download_dir : String) : FetchResult :=
  let file_path := joinPath download_dir (basename key)
  let stale : Bool :=
    match fs file_path with
    | none => true
    | some m => decide (m < now - 24 * 3600)
  if stale then
    { path := file_path, downloaded := true,
      fs := fun p => if p = file_path then some now else fs p }
  else
    { path := file_path, downloaded := false, fs := fs }

/-! ## Helper lemmas on folded minima and maxima -/

lemma foldl_min_le_init (xs : List ℚ) : ∀ a : ℚ, xs.foldl min a ≤ a := by
  induction xs with
  | nil => intro a; exact le_refl a
  | cons x xs ih => intro a; exact le_trans (ih (min a x)) (min_le_left a x)

lemma foldl_min_le_of_mem (xs : List ℚ) : ∀ a x : ℚ, x ∈ xs → xs.foldl min a ≤ x := by
  induction xs with
  | nil => intro a x hx; cases hx
  | cons y ys ih =>
    intro a x hx
    rcases List.mem_cons.mp hx with h | h
    · subst h; exact le_trans (foldl_min_le_init ys (min a x)) (min_le_right a x)
    · exact ih (min a y) x h

lemma foldl_min_mem (xs : List ℚ) : ∀ a : ℚ, xs.foldl min a = a ∨ xs.foldl min a ∈ xs := by
  induction xs with
  | nil => intro a; exact Or.inl rfl
  | cons x xs ih =>
    intro a
    rcases ih (min a x) with h | h
    · rcases min_choice a x with hm | hm
      · exact Or.inl (h.trans hm)
      · exact Or.inr (List.mem_cons.mpr (Or.inl (h.trans hm)))
    · exact Or.inr (List.mem_cons.mpr (Or.inr h))

lemma foldl_max_ge_init (xs : List ℚ) : ∀ a : ℚ, a ≤ xs.foldl max a := by
  induction xs with
  | nil => intro a; exact le_refl a
  | cons x xs ih => intro a; exact le_trans (le_max_left a x) (ih (max a x))

lemma foldl_max_ge_of_mem (xs : List ℚ) : ∀ a x : ℚ, x ∈ xs → x ≤ xs.foldl max a := by
  induction xs with
  | nil => intro a x hx; cases hx
  | cons y ys ih =>
    intro a x hx
    rcases List.mem_cons.mp hx with h | h
    · subst h; exact le_trans (le_max_right a x) (foldl_max_ge_init ys (max a x))
    · exact ih (max a y) x h

lemma foldl_max_mem (xs : List ℚ) : ∀ a : ℚ, xs.foldl max a = a ∨ xs.foldl max a ∈ xs := by
  induction xs with
  | nil => intro a; exact Or.inl rfl
  | cons x xs ih =>
    intro a
    rcases ih (max a x) with h | h
    · rcases max_choice a x with hm | hm
      · exact Or.inl (h.trans hm)
      · exact Or.inr (List.mem_cons.mpr (Or.inl (h.trans hm)))
    · exact Or.inr (List.mem_cons.mpr (Or.inr h))

lemma listMin_mem (l : List ℚ) (h : l ≠ []) : listMin l ∈ l := by
  match l with
  | [] => exact absurd rfl h
  | x :: xs =>
    rcases foldl_min_mem xs x with h1 | h1
    · show xs.foldl min x ∈ x :: xs
      rw [h1]; exact List.mem_cons_self x xs
    · exact List.mem_cons.mpr (Or.inr h1)

lemma listMin_le (l : List ℚ) (x : ℚ) (hx : x ∈ l) : listMin l ≤ x := by
  match l with
  | [] => cases hx
  | y :: ys =>
    rcases List.mem_cons.mp hx with h | h
    · exact h ▸ foldl_min_le_init ys y
    · exact foldl_min_le_of_mem ys y x h

lemma listMax_mem (l : List ℚ) (h : l ≠ []) : listMax l ∈ l := by
  match l with
  | [] => exact absurd rfl h
  | x :: xs =>
    rcases foldl_max_mem xs x with h1 | h1
    · show xs.foldl max x ∈ x :: xs
      rw [h1]; exact List.mem_cons_self x xs
    · exact List.mem_cons.mpr (Or.inr h1)

lemma listMax_ge (l : List ℚ) (x : ℚ) (hx : x ∈ l) : x ≤ listMax l := by
  match l with
  | [] => cases hx
  | y :: ys =>
    rcases List.mem_cons.mp hx with h | h
    · exact h ▸ foldl_max_ge_init ys y
    · exact foldl_max_ge_of_mem ys y x h

/-! ## Claim theorems -/

/-- C2: for every raster whose first band, after discarding NaN, ±Inf and
the declared no-data sentinel, yields a non-empty sample set,
`calculate_vmin_vmax` with method `min_max` returns the pair
(sample minimum, sample maximum). -/
theorem calc_min_max_returns_sample_extrema
    (data : List Pixel) (nodata : Option ℚ) (pc : ℚ × ℚ) (k σ : ℚ)
    (h : validPixels data nodata ≠ []) :
    ∃ a b, calculate_vmin_vmax data nodata "min_max" pc k σ = .ok (a, b)
      ∧ a ∈ validPixels data nodata ∧ b ∈ validPixels data nodata
      ∧ ∀ x ∈ validPixels data nodata, a ≤ x ∧ x ≤ b := by
  refine ⟨listMin (validPixels data nodata), listMax (validPixels data nodata), ?_,
    listMin_mem _ h, listMax_mem _ h,
    fun x hx => ⟨listMin_le _ x hx, listMax_ge _ x hx⟩⟩
  unfold calculate_vmin_vmax
  simp [List.length_eq_zero, h]

/-- Witness for C2 at the spec's two examples: band `{1, 5, 3, 9, 2}` with
no sentinel gives `(1, 9)`, and `{1, NaN, Inf, 5}` gives `(1, 5)`. -/
theorem calc_min_max_returns_sample_extrema_witness :
    (∃ a b, calculate_vmin_vmax [.val 1, .val 5, .val 3, .val 9, .val 2] none "min_max" (2, 98) 2 0 = .ok (a, b)
      ∧ a ∈ validPixels [.val 1, .val 5, .val 3, .val 9, .val 2] none
      ∧ b ∈ validPixels [.val 1, .val 5, .val 3, .val 9, .val 2] none
      ∧ ∀ x ∈ validPixels [.val 1, .val 5, .val 3, .val 9, .val 2] none, a ≤ x ∧ x ≤ b)
    ∧ calculate_vmin_vmax [.val 1, .val 5, .val 3, .val 9, .val 2] none "min_max" (2, 98) 2 0 = .ok (1, 9)
    ∧ calculate_vmin_vmax [.val 1, .nan, .posInf, .val 5] none "min_max" (2, 98) 2 0 = .ok (1, 5) :=
  ⟨calc_min_max_returns_sample_extrema _ _ _ _ _ (by simp [validPixels]), rfl, rfl⟩

/-- C3: if the sample set is empty after filtering, `calculate_vmin_vmax`
fails with the no-valid-pixels error regardless of the method, and never
returns a pair. -/
theorem calc_empty_sample_errors
    (data : List Pixel) (nodata : Option ℚ) (method : String)
    (pc : ℚ × ℚ) (k σ : ℚ)
    (h : validPixels data nodata = []) :
    calculate_vmin_vmax data nodata method pc k σ = .error noValidPixelsMsg
    ∧ ∀ p : ℚ × ℚ, calculate_vmin_vmax data nodata method pc k σ ≠ .ok p := by
  have he : calculate_vmin_vmax data nodata method pc k σ = .error noValidPixelsMsg := by
    unfold calculate_vmin_vmax
    simp [h]
  exact ⟨he, fun p hp => by rw [he] at hp; cases hp⟩

/-- Witness for C3: a raster whose every pixel equals the declared no-data
sentinel `7`. -/
theorem calc_empty_sample_errors_witness :
    calculate_vmin_vmax [.val 7, .val 7, .val 7] (some 7) "min_max" (2, 98) 2 0 = .error noValidPixelsMsg
    ∧ ∀ p : ℚ × ℚ, calculate_vmin_vmax [.val 7, .val 7, .val 7] (some 7) "min_max" (2, 98) 2 0 ≠ .ok p :=
  calc_empty_sample_errors _ _ _ _ _ _ (by simp [validPixels])

/-- `sub` occurs verbatim inside `msg`. -/
def mentionsStr (msg sub : String) : Prop := ∃ a b, msg = a ++ sub ++ b

/-- C7: with a non-empty sample set, every method other than the three
accepted variants fails with the invalid-method error, whose message names
all three variants, and no range is returned. -/
theorem calc_unknown_method_errors
    (data : List Pixel) (nodata : Option ℚ) (method : String)
    (pc : ℚ × ℚ) (k σ : ℚ)
    (h : validPixels data nodata ≠ [])
    (h1 : method ≠ "min_max") (h2 : method ≠ "percent_clip") (h3 : method ≠ "std_dev") :
    calculate_vmin_vmax data nodata method pc k σ = .error invalidMethodMsg
    ∧ mentionsStr invalidMethodMsg "min_max"
    ∧ mentionsStr invalidMethodMsg "percent_clip"
    ∧ mentionsStr invalidMethodMsg "std_dev"
    ∧ ∀ p : ℚ × ℚ, calculate_vmin_vmax data nodata method pc k σ ≠ .ok p := by
  have he : calculate_vmin_vmax data nodata method pc k σ = .error invalidMethodMsg := by
    unfold calculate_vmin_vmax
    simp [List.length_eq_zero, h, h1, h2, h3]
  refine ⟨he, ?_, ?_, ?_, fun p hp => by rw [he] at hp; cases hp⟩
  · exact ⟨"Invalid method. Choose from '", "', 'percent_clip', or 'std_dev'.", rfl⟩
  · exact ⟨"Invalid method. Choose from 'min_max', '", "', or 'std_dev'.", rfl⟩
  · exact ⟨"Invalid method. Choose from 'min_max', 'percent_clip', or '", "'.", rfl⟩

/-- Witness for C7 at the unknown method `"median"`. -/
theorem calc_unknown_method_errors_witness :
    calculate_vmin_vmax [.val 1, .val 2] none "median" (2, 98) 2 0 = .error invalidMethodMsg
    ∧ mentionsStr invalidMethodMsg "min_max"
    ∧ mentionsStr invalidMethodMsg "percent_clip"
    ∧ mentionsStr invalidMethodMsg "std_dev"
    ∧ ∀ p : ℚ × ℚ, calculate_vmin_vmax [.val 1, .val 2] none "median" (2, 98) 2 0 ≠ .ok p :=
  calc_unknown_method_errors _ _ _ _ _ _ (by simp [validPixels])
    (by decide) (by decide) (by decide)

/-- C10: the empty-sample check precedes method validation: with an empty
sample set and an unrecognized method, the error raised is the
no-valid-pixel-values one, which differs from the unknown-method one. -/
theorem calc_empty_check_precedes_method_check
    (data : List Pixel) (nodata : Option ℚ) (method : String)
    (pc : ℚ × ℚ) (k σ : ℚ)
    (h : validPixels data nodata = [])
    (h1 : method ≠ "min_max") (h2 : method ≠ "percent_clip") (h3 : method ≠ "std_dev") :
    calculate_vmin_vmax data nodata method pc k σ = .error noValidPixelsMsg
    ∧ noValidPixelsMsg ≠ invalidMethodMsg := by
  constructor
  · unfold calculate_vmin_vmax
    simp [h]
  · decide

/-- Witness for C10: an all-sentinel raster with method `"bogus"`. -/
theorem calc_empty_check_precedes_method_check_witness :
    calculate_vmin_vmax [.val 5, .val 5] (some 5) "bogus" (2, 98) 2 0 = .error noValidPixelsMsg
    ∧ noValidPixelsMsg ≠ invalidMethodMsg :=
  calc_empty_check_precedes_method_check _ _ _ _ _ _ (by simp [validPixels])
    (by decide) (by decide) (by decide)

/-- C4: with a non-empty sample set, method `std_dev` and multiplier `k`
return `(mean − k·σ, mean + k·σ)` for `σ` the population standard
deviation (the nonnegative square root of the population variance),
with no clamping to the sample extrema. -/
theorem calc_std_dev_returns_mean_pm_k_std
    (data : List Pixel) (nodata : Option ℚ) (pc : ℚ × ℚ) (k σ : ℚ)
    (h : validPixels data nodata ≠ [])
    (hσ0 : 0 ≤ σ) (hσ : σ ^ 2 = popVariance (validPixels data nodata)) :
    calculate_vmin_vmax data nodata "std_dev" pc k σ
      = .ok (listMean (validPixels data nodata) - k * σ,
             listMean (validPixels data nodata) + k * σ) := by
  unfold calculate_vmin_vmax
  simp [List.length_eq_zero, h]

/-- Witness for C4: the band `{8, 12}` has mean `10` and population
standard deviation `2`; with `k = 2` the result is `(6, 14)`, which lies
strictly outside the sample range `[8, 12]` — unclamped. -/
theorem calc_std_dev_returns_mean_pm_k_std_witness :
    calculate_vmin_vmax [.val 8, .val 12] none "std_dev" (2, 98) 2 2 = .ok (6, 14)
    ∧ (6 : ℚ) < listMin (validPixels [.val 8, .val 12] none)
    ∧ listMax (validPixels [.val 8, .val 12] none) < (14 : ℚ) := by
  refine ⟨?_, by with_unfolding_all rfl, by with_unfolding_all rfl⟩
  have h := calc_std_dev_returns_mean_pm_k_std [.val 8, .val 12] none (2, 98) 2 2
    (by simp [validPixels]) (by norm_num)
    (by show (2 : ℚ) ^ 2 = popVariance [8, 12]; with_unfolding_all rfl)
  rw [h]
  with_unfolding_all rfl

/-! ## Characterization lemmas for `download_from_s3` -/

lemma download_from_s3_eq_none
    (fs : MtimeFS) (now : ℤ) (b k d : String)
    (hfs : fs (joinPath d (basename k)) = none) :
    download_from_s3 fs now b k d =
      { path := joinPath d (basename k), downloaded := true,
        fs := fun p => if p = joinPath d (basename k) then some now else fs p } := by
  simp [download_from_s3, hfs]

lemma download_from_s3_eq_stale
    (fs : MtimeFS) (now : ℤ) (b k d : String) (m : ℤ)
    (hfs : fs (joinPath d (basename k)) = some m) (hm : m < now - 24 * 3600) :
    download_from_s3 fs now b k d =
      { path := joinPath d (basename k), downloaded := true,
        fs := fun p => if p = joinPath d (basename k) then some now else fs p } := by
  simp [download_from_s3, hfs, hm]
  omega

lemma download_from_s3_eq_fresh
    (fs : MtimeFS) (now : ℤ) (b k d : String) (m : ℤ)
    (hfs : fs (joinPath d (basename k)) = some m) (hm : ¬ m < now - 24 * 3600) :
    download_from_s3 fs now b k d =
      { path := joinPath d (basename k), downloaded := false, fs := fs } := by
  simp [download_from_s3, hfs, hm]
  omega

lemma download_from_s3_path_eq
    (fs : MtimeFS) (now : ℤ) (b k d : String) :
    (download_from_s3 fs now b k d).path = joinPath d (basename k) := by
  rcases hfs : fs (joinPath d (basename k)) with _ | m
  · rw [download_from_s3_eq_none fs now b k d hfs]
  · rcases lt_or_ge m (now - 24 * 3600) with hm | hm
    · rw [download_from_s3_eq_stale fs now b k d m hfs hm]
    · rw [download_from_s3_eq_fresh fs now b k d m hfs (not_lt.mpr hm)]

/-- C1: `download_from_s3` downloads exactly when no file exists at the
computed path or the file's mtime is older than now minus 24 hours;
otherwise it returns the existing path with the filesystem untouched; and
after a download, a second call with identical arguments within the
freshness window performs no second download and returns the same path. -/
theorem download_from_s3_freshness
    (fs : MtimeFS) (now : ℤ) (bucket_name key download_dir : String) :
    ((download_from_s3 fs now bucket_name key download_dir).downloaded = true
      ↔ fs (joinPath download_dir (basename key)) = none
        ∨ ∃ m, fs (joinPath download_dir (basename key)) = some m ∧ m < now - 24 * 3600)
    ∧ ((download_from_s3 fs now bucket_name key download_dir).downloaded = false →
        (download_from_s3 fs now bucket_name key download_dir).path
            = joinPath download_dir (basename key)
        ∧ (download_from_s3 fs now bucket_name key download_dir).fs = fs)
    ∧ (∀ now2 : ℤ, (download_from_s3 fs now bucket_name key download_dir).downloaded = true →
        now2 ≤ now + 24 * 3600 →
        (download_from_s3 (download_from_s3 fs now bucket_name key download_dir).fs
            now2 bucket_name key download_dir).downloaded = false
        ∧ (download_from_s3 (download_from_s3 fs now bucket_name key download_dir).fs
            now2 bucket_name key download_dir).path
            = (download_from_s3 fs now bucket_name key download_dir).path) := by
  rcases hfs : fs (joinPath download_dir (basename key)) with _ | m
  · rw [download_from_s3_eq_none fs now bucket_name key download_dir hfs]
    refine ⟨iff_of_true rfl (Or.inl rfl), ?_, ?_⟩
    · intro hq; exact nomatch hq
    intro now2 _ hwin
    have hfs2 : (fun p => if p = joinPath download_dir (basename key) then some now else fs p)
        (joinPath download_dir (basename key)) = some now := by simp
    have hfresh : ¬ now < now2 - 24 * 3600 := by omega
    rw [download_from_s3_eq_fresh _ now2 bucket_name key download_dir now hfs2 hfresh]
    exact ⟨rfl, rfl⟩
  · rcases lt_or_ge m (now - 24 * 3600) with hm | hm
    · rw [download_from_s3_eq_stale fs now bucket_name key download_dir m hfs hm]
      refine ⟨iff_of_true rfl (Or.inr ⟨m, rfl, hm⟩), ?_, ?_⟩
      · intro hq; exact nomatch hq
      intro now2 _ hwin
      have hfs2 : (fun p => if p = joinPath download_dir (basename key) then some now else fs p)
          (joinPath download_dir (basename key)) = some now := by simp
      have hfresh : ¬ now < now2 - 24 * 3600 := by omega
      rw [download_from_s3_eq_fresh _ now2 bucket_name key download_dir now hfs2 hfresh]
      exact ⟨rfl, rfl⟩
    · rw [download_from_s3_eq_fresh fs now bucket_name key download_dir m hfs (not_lt.mpr hm)]
      refine ⟨?_, fun _ => ⟨rfl, rfl⟩, ?_⟩
      · refine iff_of_false (fun hq => nomatch hq) ?_
        rintro (h | ⟨m2, hm2, hlt⟩)
        · exact nomatch h
        · injection hm2 with e
          exact absurd (e ▸ hlt) (not_lt.mpr hm)
      · intro now2 hdl _
        exact nomatch hdl

/-- Witness for C1: an initially empty cache at time `1000000`; the first
call downloads, and a second call one hour later performs no download and
returns the same path. -/
theorem download_from_s3_freshness_witness :
    (download_from_s3 (fun _ => none) 1000000 "bucket" "data/c.tif" "tmp").downloaded = true
    ∧ (download_from_s3 (download_from_s3 (fun _ => none) 1000000 "bucket" "data/c.tif" "tmp").fs
        1003600 "bucket" "data/c.tif" "tmp").downloaded = false
    ∧ (download_from_s3 (download_from_s3 (fun _ => none) 1000000 "bucket" "data/c.tif" "tmp").fs
        1003600 "bucket" "data/c.tif" "tmp").path
        = (download_from_s3 (fun _ => none) 1000000 "bucket" "data/c.tif" "tmp").path := by
  have h := download_from_s3_freshness (fun _ => none) 1000000 "bucket" "data/c.tif" "tmp"
  have hdl : (download_from_s3 (fun _ => none) 1000000 "bucket" "data/c.tif" "tmp").downloaded = true :=
    h.1.mpr (Or.inl rfl)
  have h2 := h.2.2 1003600 hdl (by norm_num)
  exact ⟨hdl, h2.1, h2.2⟩

/-- C6: the returned local path is the destination directory joined with
the final slash-delimited segment of the key, independent of bucket,
filesystem state, and time; for key `"a/b/c.tif"` it is `<dir>/c.tif`. -/
theorem download_from_s3_path_deterministic
    (fs fs2 : MtimeFS) (now now2 : ℤ) (bucket_name bucket2 key download_dir : String) :
    (download_from_s3 fs now bucket_name key download_dir).path
        = joinPath download_dir (basename key)
    ∧ (download_from_s3 fs2 now2 bucket2 key download_dir).path
        = (download_from_s3 fs now bucket_name key download_dir).path
    ∧ (download_from_s3 fs now bucket_name "a/b/c.tif" download_dir).path
        = joinPath download_dir "c.tif" := by
  refine ⟨download_from_s3_path_eq fs now bucket_name key download_dir, ?_, ?_⟩
  · rw [download_from_s3_path_eq fs2 now2 bucket2 key download_dir,
      download_from_s3_path_eq fs now bucket_name key download_dir]
  · rw [download_from_s3_path_eq fs now bucket_name "a/b/c.tif" download_dir]
    have hbn : basename "a/b/c.tif" = "c.tif" := by with_unfolding_all rfl
    rw [hbn]

/-- The band `1, 2, ..., 100`: 100 valid values evenly spaced. -/
def band1to100 : List Pixel := (List.range 100).map fun i => Pixel.val ((i : ℚ) + 1)

lemma validPixels_band1to100 :
    validPixels band1to100 none = (List.range 100).map fun i => (i : ℚ) + 1 := by
  with_unfolding_all rfl

lemma validPixels_band1to100_ne_nil : validPixels band1to100 none ≠ [] := by
  intro hc
  rw [validPixels_band1to100] at hc
  simp at hc
  exact absurd (hc 0) (by norm_num)

/-- C5 (amended): with a non-empty sample set, method `percent_clip`
returns the two requested percentiles of the sample set (numpy's default
linear interpolation). -/
theorem calc_percent_clip_returns_percentiles
    (data : List Pixel) (nodata : Option ℚ) (pc : ℚ × ℚ) (k σ : ℚ)
    (h : validPixels data nodata ≠ []) :
    calculate_vmin_vmax data nodata "percent_clip" pc k σ
      = .ok (percentile (validPixels data nodata) pc.1,
             percentile (validPixels data nodata) pc.2) := by
  unfold calculate_vmin_vmax
  simp [List.length_eq_zero, h]

/-- Witness for C5 (amended): for the band `1..100` with
`percent_clip = (2, 98)` the result is the percentile pair, exactly
`(2.98, 98.02)`. -/
theorem calc_percent_clip_returns_percentiles_witness :
    calculate_vmin_vmax band1to100 none "percent_clip" (2, 98) 2 0
      = .ok (percentile (validPixels band1to100 none) 2,
             percentile (validPixels band1to100 none) 98)
    ∧ percentile (validPixels band1to100 none) 2 = 2.98
    ∧ percentile (validPixels band1to100 none) 98 = 98.02 :=
  ⟨calc_percent_clip_returns_percentiles band1to100 none (2, 98) 2 0
      validPixels_band1to100_ne_nil,
    by with_unfolding_all rfl, by with_unfolding_all rfl⟩

/-- Counterexample for C5 as stated: on the band `1..100` with
`percent_clip = (2, 98)` the upper bound is `98.02`, a full unit below the
claimed `99.02`; the claimed pair is not approximately correct under the
standard linear interpolation convention. -/
theorem calc_percent_clip_spec_value_false :
    calculate_vmin_vmax band1to100 none "percent_clip" (2, 98) 2 0 = .ok (2.98, 98.02)
    ∧ calculate_vmin_vmax band1to100 none "percent_clip" (2, 98) 2 0 ≠ .ok (2.98, 99.02)
    ∧ (99.02 : ℚ) - 98.02 = 1 := by
  have h1 : calculate_vmin_vmax band1to100 none "percent_clip" (2, 98) 2 0 = .ok (2.98, 98.02) := by
    with_unfolding_all rfl
  refine ⟨h1, ?_, by norm_num⟩
  intro hcontra
  rw [h1] at hcontra
  have h2 : ((2.98 : ℚ), (98.02 : ℚ)) = ((2.98 : ℚ), (99.02 : ℚ)) := by
    injection hcontra
  have h3 : (98.02 : ℚ) = 99.02 := congrArg Prod.snd h2
  norm_num at h3

/-- C8: `calculate_vmin_vmax_file` returns the filesystem unchanged on
every input — it never writes to or mutates the source raster file — and
its result reads only the first band (and sentinel): two rasters at the
same path differing only in later bands give the same result. -/
theorem calc_file_no_side_effects
    (fs : RasterFS) (image_path method : String) (pc : ℚ × ℚ) (k σ : ℚ) :
    (calculate_vmin_vmax_file fs image_path method pc k σ).2 = fs
    ∧ ∀ (band : List Pixel) (rest rest2 : List (List Pixel)) (nd : Option ℚ),
        (calculate_vmin_vmax_file (fun p => if p = image_path then some ⟨band :: rest, nd⟩ else fs p)
            image_path method pc k σ).1
        = (calculate_vmin_vmax_file (fun p => if p = image_path then some ⟨band :: rest2, nd⟩ else fs p)
            image_path method pc k σ).1 := by
  constructor
  · cases hfs : fs image_path with
    | none => simp [calculate_vmin_vmax_file, hfs]
    | some src =>
      rcases src with ⟨bands, nd⟩
      cases bands with
      | nil => simp [calculate_vmin_vmax_file, hfs]
      | cons b bs => simp [calculate_vmin_vmax_file, hfs]
  · intro band rest rest2 nd
    simp [calculate_vmin_vmax_file]

/-- C9: whenever both `vmin` and `vmax` are supplied (non-None) to
`visualize_raster`, the branch assigning the locals `v_min`, `v_max` is
skipped and building `vis_params` fails with `NameError` — the supplied
values are never used and nothing is rendered with the caller's range. -/
theorem visualize_raster_both_supplied_name_error
    (band : List Pixel) (nodata : Option ℚ) (vmin vmax : Option ℚ) (σ : ℚ)
    (h1 : vmin.isSome = true) (h2 : vmax.isSome = true) :
    visualize_raster_visParams band nodata vmin vmax σ = .error .nameError := by
  rcases vmin with _ | v
  · cases h1
  rcases vmax with _ | w
  · cases h2
  rfl

/-- Witness for C9: supplying `vmin = 3`, `vmax = 7` yields `NameError`
rather than a render with the pair `(3, 7)`. -/
theorem visualize_raster_both_supplied_name_error_witness :
    visualize_raster_visParams [.val 1, .val 2] none (some 3) (some 7) 0 = .error .nameError :=
  visualize_raster_both_supplied_name_error [.val 1, .val 2] none (some 3) (some 7) 0 rfl rfl
